import Mathlib

/-!
Shallow embedding of `src/robusta/core/sinks/robusta/dal/supabase_dal.py`
(the `SupabaseDal` / `RobustaClient` classes) and proofs about its
session-lifecycle, response-normalization and entity-operation logic.

Modelling conventions:
* Wall-clock time (`time.time()`) is a `Nat`; only order comparisons matter.
* Every HTTP round trip consumes one response from an environment oracle
  (`Ctx.resp`, indexed by the number of gateway calls made so far); the
  identity-service `auth.sign_in` network call may raise, controlled by
  `Ctx.authFail` indexed by the number of auth calls made so far.
* Python exceptions are `Except DalError`; a raised exception propagates
  through the `bind` of the hand-rolled monad `M` below.
* The observable behaviour of an operation is its trace of `Effect`s
  (gateway requests issued, auth round trips, invocations of
  `handle_supabase_error`), recorded in the state.
* JSON parsing (`response.json()`) is abstracted by the oracle: a raw
  response carries `parsed = some v` when its body parses to the JSON
  value `v` and `parsed = none` when `.json()` would raise.
* External entity models (`NodeInfo.dict()`, `JobInfo.get_service_key()`,
  `ModelConversion.to_evidence_json`, ...) are not under `src/`; they are
  carried as opaque wire dictionaries / stored fields on the entity
  records, faithful to how `supabase_dal.py` consumes them.
-/

/-- A value stored in a wire row (a Python dict cell). -/
inductive DbVal where
  | str (s : String)
  | nat (n : Nat)
  | bool (b : Bool)
  | null
deriving DecidableEq, Repr

/-- A wire row: mapping from column name to value, Python-dict style
(later assignments shadow earlier bindings). -/
abbrev WireRow := List (String × DbVal)

/-- Python dict assignment `d[k] = v`: the new binding shadows any old one. -/
def setK (r : WireRow) (k : String) (v : DbVal) : WireRow :=
  (k, v) :: r.filter (fun p => p.1 ≠ k)

/-- Python dict lookup `d[k]` (as an `Option`). -/
def getK (r : WireRow) (k : String) : Option DbVal :=
  (r.find? (fun p => p.1 = k)).map (·.2)

/-- Python dict deletion `del d[k]`. -/
def delK (r : WireRow) (k : String) : WireRow :=
  r.filter (fun p => p.1 ≠ k)

/-- A raw HTTP response supplied by the environment for one round trip.
`parsed` abstracts `response.json()`: `some v` when the body parses to the
JSON value `v`, `none` when `.json()` raises. `rows` is the decoded list
of rows the supabase client's `execute()` reports as `data` (used by the
read operations); it is independent of the normalizer fields. -/
structure HttpResponse where
  status_code : Nat
  content : String
  parsed : Option String
  rows : List WireRow
deriving DecidableEq, Repr

/-- The `data` payload of a normalized result: `emptyStr` is the `""`
default of `__delete_patch`, `emptyObj` the `{}` default of `__rpc_patch`,
`jsonVal v` a successfully parsed body. -/
inductive RespData where
  | emptyStr
  | emptyObj
  | jsonVal (v : String)
deriving DecidableEq, Repr

/-- The normalized `{data, status_code}` dict returned by `__delete_patch`
and `__rpc_patch`; `parse_failure` records whether the local
`except Exception` branch ran (observable in the source as the
"Failed to parse delete response data" debug log). -/
structure OperationResult where
  data : RespData
  status_code : Nat
  parse_failure : Bool
deriving DecidableEq, Repr

/-- `SupabaseDal.__delete_patch` (response-normalization part): issues the
raw DELETE, then tries `response.json()`, leaving `data = ""` and catching
the exception when the body does not parse. The HTTP send itself is
modelled at the call site; this is the pure response-to-result mapping. -/
def deletePatch (r : HttpResponse) : OperationResult :=
  match r.parsed with
  | some v => { data := .jsonVal v, status_code := r.status_code, parse_failure := false }
  | none => { data := .emptyStr, status_code := r.status_code, parse_failure := true }

/-- `SupabaseDal.__rpc_patch` (response-normalization part): `data = {}`
by default; `response.json()` is attempted only when `response.content`
is non-empty, and a parse exception is caught leaving `data = {}`. -/
def rpcPatch (r : HttpResponse) : OperationResult :=
  if r.content = "" then
    { data := .emptyObj, status_code := r.status_code, parse_failure := false }
  else
    match r.parsed with
    | some v => { data := .jsonVal v, status_code := r.status_code, parse_failure := false }
    | none => { data := .emptyObj, status_code := r.status_code, parse_failure := true }

/-- One observable step taken by an operation. -/
inductive Effect where
  | insertReq (table : String) (rows : List WireRow) (upsert : Bool)
  | selectReq (table : String) (filters : List (String × String × DbVal))
  | deleteReq (table : String) (filters : List (String × String × DbVal))
  | rpcReq (fn : String) (params : WireRow)
  | authCall
  | handleErrorInvoked
deriving DecidableEq, Repr

/-- Errors raised by the embedded code: `opFailed` for the
`raise Exception(...)` paths of the DAL, `authFailed` for an exception
escaping the identity-service `auth.sign_in` call. -/
inductive DalError where
  | opFailed
  | authFailed
deriving DecidableEq, Repr

/-- The environment: gateway responses by call index, whether the n-th
auth network call raises, and the configured
`SUPABASE_LOGIN_RATE_LIMIT_SEC` cooldown. -/
structure Ctx where
  resp : Nat → HttpResponse
  authFail : Nat → Bool
  rateLimit : Nat

/-- Mutable state threaded through the embedded methods: the recorded
`self.sign_in_time`, the current wall clock, counters of gateway and auth
round trips made so far, and the effect trace. -/
structure St where
  sign_in_time : Nat
  now : Nat
  httpCount : Nat
  authCount : Nat
  effects : List Effect

/-- The computation type of the embedded methods: state passing plus
Python-style exceptions. -/
def M (α : Type) : Type := Ctx → St → St × Except DalError α

instance : Monad M where
  pure a := fun _ s => (s, .ok a)
  bind x f := fun ctx s =>
    match x ctx s with
    | (s', .ok a) => f a ctx s'
    | (s', .error e) => (s', .error e)

/-- Raise a Python exception. -/
def throwErr {α : Type} (e : DalError) : M α := fun _ s => (s, .error e)

/-- The state after one gateway request was recorded. -/
def afterReq (s : St) (e : Effect) : St :=
  { s with httpCount := s.httpCount + 1, effects := s.effects ++ [e] }

/-- One gateway HTTP round trip: record the request effect and return the
environment's response for this call index. -/
def httpCall (e : Effect) : M HttpResponse := fun ctx s =>
  (afterReq s e, .ok (ctx.resp s.httpCount))

/-- The identity-service network call made by `self.client.auth.sign_in`;
it may raise, as dictated by the environment. -/
def authNetCall : M Unit := fun ctx s =>
  ({ s with authCount := s.authCount + 1, effects := s.effects ++ [Effect.authCall] },
   if ctx.authFail s.authCount then .error .authFailed else .ok ())

/-- The immutable per-instance configuration of a `SupabaseDal`. -/
structure Dal where
  account_id : String
  cluster : String
  email : String
  password : String
  sink_name : String
  signing_key : String
deriving Repr

/-- `SupabaseDal.sign_in`: if the wall clock exceeds
`sign_in_time + SUPABASE_LOGIN_RATE_LIMIT_SEC`, record the attempt time
and then perform the identity-service round trip (which may raise after
the time was already recorded); otherwise a silent no-op. -/
def sign_in : M Unit := fun ctx s =>
  if s.sign_in_time + ctx.rateLimit < s.now then
    authNetCall ctx { s with sign_in_time := s.now }
  else (s, .ok ())

/-- `SupabaseDal.handle_supabase_error`: calls `sign_in` inside
`try/except`, swallowing (and logging) any exception. The invocation
itself is recorded in the trace. -/
def handle_supabase_error : M Unit := fun ctx s =>
  let s0 := { s with effects := s.effects ++ [Effect.handleErrorInvoked] }
  match sign_in ctx s0 with
  | (s', _) => (s', .ok ())

/-- `ServiceInfo` as consumed by `to_service`: `service_key` stores the
result of `get_service_key()` and `config` the result of
`service_config.dict()` (both computed by external entity code). -/
structure ServiceInfo where
  name : String
  service_type : String
  ns : String
  classification : String
  deleted : Bool
  service_key : String
  config : Option WireRow
  total_pods : Nat
  ready_pods : Nat
deriving Repr

/-- `SupabaseDal.to_service`: the wire row literal built for one service
(`ns` models the `namespace` attribute). -/
def to_service (d : Dal) (service : ServiceInfo) : WireRow :=
  [("name", .str service.name),
   ("type", .str service.service_type),
   ("namespace", .str service.ns),
   ("classification", .str service.classification),
   ("cluster", .str d.cluster),
   ("account_id", .str d.account_id),
   ("deleted", .bool service.deleted),
   ("service_key", .str service.service_key),
   ("config", match service.config with | some _ => .str "config" | none => .null),
   ("total_pods", .nat service.total_pods),
   ("ready_pods", .nat service.ready_pods),
   ("update_time", .str "now()")]

/-- An entity whose serialization `dict()` is produced by external model
code: the DAL only overwrites tenant/bookkeeping keys on it. Covers
`NodeInfo`, `JobInfo`, `HelmRelease`, `NamespaceInfo` and
`ScanReportRow`; `service_key` stores `get_service_key()` where the DAL
calls it. -/
structure Entity where
  dict : WireRow
  service_key : String
deriving Repr

/-- `SupabaseDal.__to_db_scanResult`. -/
def to_db_scanResult (d : Dal) (scanResult : Entity) : WireRow :=
  setK (setK scanResult.dict "account_id" (.str d.account_id))
    "cluster_id" (.str d.cluster)

/-- `SupabaseDal.__to_db_node`. -/
def to_db_node (d : Dal) (node : Entity) : WireRow :=
  setK (setK (setK node.dict "account_id" (.str d.account_id))
    "cluster_id" (.str d.cluster)) "updated_at" (.str "now()")

/-- `SupabaseDal.__to_db_job`. -/
def to_db_job (d : Dal) (job : Entity) : WireRow :=
  setK (setK (setK (setK job.dict "account_id" (.str d.account_id))
    "cluster_id" (.str d.cluster))
    "service_key" (.str job.service_key)) "updated_at" (.str "now()")

/-- `SupabaseDal.__to_db_helm_release`. -/
def to_db_helm_release (d : Dal) (helm_release : Entity) : WireRow :=
  setK (setK (setK (setK helm_release.dict "account_id" (.str d.account_id))
    "cluster_id" (.str d.cluster))
    "service_key" (.str helm_release.service_key)) "updated_at" (.str "now()")

/-- `SupabaseDal.__to_db_namespace`. -/
def to_db_namespace (d : Dal) (ns : Entity) : WireRow :=
  setK (setK (setK ns.dict "account_id" (.str d.account_id))
    "cluster_id" (.str d.cluster)) "updated_at" (.str "now()")

/-- A block of an enrichment: `persist_scan` only processes
`ScanReportBlock`s, skipping all other block kinds. -/
inductive Block where
  | scanReport (scan_id : String) (results : List Entity)
      (start_time end_time ty grade : String)
  | otherBlock
deriving Repr

/-- An `Enrichment` as consumed by `persist_finding` / `persist_scan`:
`scanFlag` models `enrich.annotations.get(EnrichmentAnnotation.SCAN, False)`. -/
structure Enrichment where
  scanFlag : Bool
  blocks : List Block
deriving Repr

/-- A `Finding` as consumed by `persist_finding`. -/
structure Finding where
  id : String
  enrichments : List Enrichment
deriving Repr

/-- Modelled from the spec: `ModelConversion.to_evidence_json`
(`model_conversion.py` is not under `src/`); per the spec's Entity Codec
contract it attaches the tenant scope and identifying fields to the
evidence wire row. -/
def to_evidence_json (account_id cluster_id sink_name signing_key finding_id : String)
    (_enrichment : Enrichment) : WireRow :=
  [("account_id", .str account_id),
   ("cluster_id", .str cluster_id),
   ("sink_name", .str sink_name),
   ("signing_key", .str signing_key),
   ("issue_id", .str finding_id)]

/-- Modelled from the spec: `ModelConversion.to_finding_json`
(`model_conversion.py` is not under `src/`); it attaches the tenant scope
to the issue wire row. -/
def to_finding_json (account_id cluster_id : String) (finding : Finding) : WireRow :=
  [("account_id", .str account_id),
   ("cluster", .str cluster_id),
   ("id", .str finding.id)]

/-- `SupabaseDal.__rpc_patch` as invoked through the monad: one POST round
trip whose raw response is normalized by `rpcPatch`. -/
def rpc_patch_call (fn : String) (params : WireRow) : M OperationResult := do
  let raw ← httpCall (.rpcReq fn params)
  pure (rpcPatch raw)

/-- `SupabaseDal.__delete_patch` as invoked through the monad: one raw
DELETE round trip whose response is normalized by `deletePatch`. -/
def delete_patch_call (table : String) (filters : List (String × String × DbVal)) :
    M OperationResult := do
  let raw ← httpCall (.deleteReq table filters)
  pure (deletePatch raw)

/-- Body of `persist_scan`'s `for block in enrichment.blocks` loop. -/
def persist_scan_blocks (d : Dal) : List Block → M Unit
  | [] => pure ()
  | Block.otherBlock :: rest => persist_scan_blocks d rest
  | Block.scanReport scan_id results start_time end_time ty grade :: rest => do
    let res ← httpCall (.insertReq "ScansResults" (results.map (to_db_scanResult d)) false)
    if res.status_code ∈ [200, 201] then pure () else do
      handle_supabase_error
      throwErr .opFailed
    let res2 ← rpc_patch_call "insert_scan_meta"
      [("_account_id", .str d.account_id),
       ("_cluster", .str d.cluster),
       ("_scan_id", .str scan_id),
       ("_scan_start", .str start_time),
       ("_scan_end", .str end_time),
       ("_type", .str ty),
       ("_grade", .str grade)]
    if res2.status_code ∈ [200, 201, 204] then pure () else do
      handle_supabase_error
      throwErr .opFailed
    persist_scan_blocks d rest

/-- `SupabaseDal.persist_scan`. -/
def persist_scan (d : Dal) (enrichment : Enrichment) : M Unit :=
  persist_scan_blocks d enrichment.blocks

/-- `for scan in scans: self.persist_scan(scan)` in `persist_finding`. -/
def persist_scans_loop (d : Dal) : List Enrichment → M Unit
  | [] => pure ()
  | scan :: rest => do
    persist_scan d scan
    persist_scans_loop d rest

/-- The `for enrichment in enrichments` evidence loop of `persist_finding`:
a non-201 status is only logged — the loop continues and no recovery hook
runs. -/
def persist_evidence_loop (d : Dal) (finding_id : String) : List Enrichment → M Unit
  | [] => pure ()
  | enrichment :: rest => do
    let res ← httpCall (.insertReq "Evidence"
      [to_evidence_json d.account_id d.cluster d.sink_name d.signing_key finding_id enrichment]
      false)
    if res.status_code = 201 then pure () else pure ()
    persist_evidence_loop d finding_id rest

/-- `SupabaseDal.persist_finding`: split enrichments into scan / non-scan
by the annotation flag (one pass, order preserving, modelled by
`List.partition`), persist scans, return early when scans are non-empty
and nothing else remains, otherwise write the evidence rows and one issue
row (a non-201 issue insert is logged and triggers recovery, never
raises). -/
def persist_finding (d : Dal) (finding : Finding) : M Unit := do
  let parts := finding.enrichments.partition (·.scanFlag)
  persist_scans_loop d parts.1
  if 0 < parts.1.length ∧ parts.2.length = 0 then pure ()
  else do
    persist_evidence_loop d finding.id parts.2
    let res ← httpCall (.insertReq "Issues" [to_finding_json d.account_id d.cluster finding] false)
    if res.status_code = 201 then pure ()
    else handle_supabase_error

/-- `SupabaseDal.persist_services`. -/
def persist_services (d : Dal) (services : List ServiceInfo) : M Unit := do
  if services.isEmpty then pure ()
  else do
    let res ← httpCall (.insertReq "Services" (services.map (to_service d)) true)
    if res.status_code ∈ [200, 201] then pure () else do
      handle_supabase_error
      throwErr .opFailed

/-- `SupabaseDal.get_active_services`: select with the tenant filters,
raise unless status is exactly 200, return the wire rows (per-field entity
reconstruction is external model code and is not needed by any claim). -/
def get_active_services (d : Dal) : M (List WireRow) := do
  let res ← httpCall (.selectReq "Services"
    [("account_id", "eq", .str d.account_id),
     ("cluster", "eq", .str d.cluster),
     ("deleted", "eq", .bool false)])
  if res.status_code ∈ [200] then pure res.rows else do
    handle_supabase_error
    throwErr .opFailed

/-- `SupabaseDal.has_cluster_findings`. -/
def has_cluster_findings (d : Dal) : M Bool := do
  let res ← httpCall (.selectReq "Issues"
    [("account_id", "eq", .str d.account_id),
     ("cluster", "eq", .str d.cluster)])
  if res.status_code ∈ [200] then pure (0 < res.rows.length) else do
    handle_supabase_error
    throwErr .opFailed

/-- `SupabaseDal.get_active_nodes`. -/
def get_active_nodes (d : Dal) : M (List WireRow) := do
  let res ← httpCall (.selectReq "Nodes"
    [("account_id", "eq", .str d.account_id),
     ("cluster_id", "eq", .str d.cluster),
     ("deleted", "eq", .bool false)])
  if res.status_code ∈ [200] then pure res.rows else do
    handle_supabase_error
    throwErr .opFailed

/-- `SupabaseDal.publish_nodes`. -/
def publish_nodes (d : Dal) (nodes : List Entity) : M Unit := do
  if nodes.isEmpty then pure ()
  else do
    let res ← httpCall (.insertReq "Nodes" (nodes.map (to_db_node d)) true)
    if res.status_code ∈ [200, 201] then pure () else do
      handle_supabase_error
      throwErr .opFailed

/-- `SupabaseDal.get_active_jobs`. -/
def get_active_jobs (d : Dal) : M (List WireRow) := do
  let res ← httpCall (.selectReq "Jobs"
    [("account_id", "eq", .str d.account_id),
     ("cluster_id", "eq", .str d.cluster),
     ("deleted", "eq", .bool false)])
  if res.status_code ∈ [200] then pure res.rows else do
    handle_supabase_error
    throwErr .opFailed

/-- `SupabaseDal.publish_jobs`. -/
def publish_jobs (d : Dal) (jobs : List Entity) : M Unit := do
  if jobs.isEmpty then pure ()
  else do
    let res ← httpCall (.insertReq "Jobs" (jobs.map (to_db_job d)) true)
    if res.status_code ∈ [200, 201] then pure () else do
      handle_supabase_error
      throwErr .opFailed

/-- `SupabaseDal.remove_deleted_job`: `if not job: return`, then a raw
DELETE (through `__delete_patch`) keyed by the tenant scope and the job's
service key; raise unless status ∈ {204, 200, 202}. -/
def remove_deleted_job (d : Dal) (job : Option Entity) : M Unit := do
  match job with
  | none => pure ()
  | some j => do
    let res ← delete_patch_call "Jobs"
      [("account_id", "eq", .str d.account_id),
       ("cluster_id", "eq", .str d.cluster),
       ("service_key", "eq", .str j.service_key)]
    if res.status_code ∈ [204, 200, 202] then pure () else do
      handle_supabase_error
      throwErr .opFailed

/-- `SupabaseDal.get_active_helm_release`. -/
def get_active_helm_release (d : Dal) : M (List WireRow) := do
  let res ← httpCall (.selectReq "HelmReleases"
    [("account_id", "eq", .str d.account_id),
     ("cluster_id", "eq", .str d.cluster),
     ("deleted", "eq", .bool false)])
  if res.status_code ∈ [200] then pure res.rows else do
    handle_supabase_error
    throwErr .opFailed

/-- `SupabaseDal.publish_helm_releases`. -/
def publish_helm_releases (d : Dal) (helm_releases : List Entity) : M Unit := do
  if helm_releases.isEmpty then pure ()
  else do
    let res ← httpCall (.insertReq "HelmReleases"
      (helm_releases.map (to_db_helm_release d)) true)
    if res.status_code ∈ [200, 201] then pure () else do
      handle_supabase_error
      throwErr .opFailed

/-- A `ClusterStatus` as consumed by `to_db_cluster_status`: its `dict()`
is external model code; `last_alert_none` models `last_alert_at is None`. -/
structure ClusterStatus where
  dict : WireRow
  last_alert_none : Bool
deriving Repr

/-- `SupabaseDal.to_db_cluster_status`. -/
def to_db_cluster_status (data : ClusterStatus) : WireRow :=
  setK (if data.last_alert_none then delK data.dict "last_alert_at" else data.dict)
    "updated_at" (.str "now()")

/-- `SupabaseDal.publish_cluster_status`: upsert; on unexpected status
log and trigger recovery, but never raise. -/
def publish_cluster_status (d : Dal) (cluster_status : ClusterStatus) : M Unit := do
  let _ := d
  let res ← httpCall (.insertReq "ClustersStatus" [to_db_cluster_status cluster_status] true)
  if res.status_code ∈ [200, 201] then pure ()
  else handle_supabase_error

/-- `SupabaseDal.get_active_namespaces`. -/
def get_active_namespaces (d : Dal) : M (List WireRow) := do
  let res ← httpCall (.selectReq "Namespaces"
    [("account_id", "eq", .str d.account_id),
     ("cluster_id", "eq", .str d.cluster),
     ("deleted", "eq", .bool false)])
  if res.status_code ∈ [200] then pure res.rows else do
    handle_supabase_error
    throwErr .opFailed

/-- `SupabaseDal.publish_namespaces`. -/
def publish_namespaces (d : Dal) (namespaces : List Entity) : M Unit := do
  if namespaces.isEmpty then pure ()
  else do
    let res ← httpCall (.insertReq "Namespaces" (namespaces.map (to_db_namespace d)) true)
    if res.status_code ∈ [200, 201] then pure () else do
      handle_supabase_error
      throwErr .opFailed

/-- `SupabaseDal.publish_cluster_nodes`: one RPC through `__rpc_patch`;
on unexpected status log and trigger recovery, but never raise. -/
def publish_cluster_nodes (d : Dal) (node_count : Nat) : M Unit := do
  let res ← rpc_patch_call "update_cluster_node_count"
    [("_account_id", .str d.account_id),
     ("_cluster_id", .str d.cluster),
     ("_node_count", .nat node_count)]
  if res.status_code ∈ [200, 201, 204] then pure ()
  else handle_supabase_error

/-- A cached identity-service session (`auth.current_session`); an empty
`access_token` models a falsy (`None`/empty) token. -/
structure Session where
  access_token : String
deriving Repr

/-- The state of `RobustaClient` read by `_get_auth_headers`: the supabase
key and the (possibly absent) auth client with its cached session.
`auth.session()` returning the cached `current_session` is external gotrue
code, modelled from the spec as the identity client's session accessor. -/
structure ClientState where
  supabase_key : String
  auth : Option (Option Session)
deriving Repr

/-- `RobustaClient._get_auth_headers`: take the token from the current
session when one exists with a truthy access token, otherwise fall back to
the static supabase key; always emit both headers. -/
def get_auth_headers (c : ClientState) : List (String × String) :=
  let session : Option Session :=
    match c.auth with
    | some a => a
    | none => none
  let access_token : String :=
    match session with
    | some s => if s.access_token ≠ "" then s.access_token else c.supabase_key
    | none => c.supabase_key
  [("apiKey", c.supabase_key), ("Authorization", "Bearer " ++ access_token)]

/-- A fresh state: no attempt recorded, clock at 0, empty trace. -/
def st0 : St := { sign_in_time := 0, now := 0, httpCount := 0, authCount := 0, effects := [] }

/-- A sample DAL configuration. -/
def d0 : Dal :=
  { account_id := "acc", cluster := "cl", email := "em", password := "pw",
    sink_name := "sink", signing_key := "sig" }

/-- A response with the given status and a parseable non-empty body. -/
def mkResp (n : Nat) : HttpResponse :=
  { status_code := n, content := "[]", parsed := some "[]", rows := [] }

/-- Environment answering every gateway call with status 200. -/
def ctx200 : Ctx := { resp := fun _ => mkResp 200, authFail := fun _ => false, rateLimit := 900 }

/-- Environment answering every gateway call with status 201. -/
def ctx201 : Ctx := { resp := fun _ => mkResp 201, authFail := fun _ => false, rateLimit := 900 }

/-- Environment whose first gateway call fails with 500 and later ones
return 201. -/
def ctxEv : Ctx :=
  { resp := fun n => if n = 0 then mkResp 500 else mkResp 201,
    authFail := fun _ => false, rateLimit := 900 }

/-- Environment for a successful scan persist: insert answered 201, the
scan-meta RPC answered 200. -/
def ctxScan : Ctx :=
  { resp := fun n => if n = 0 then mkResp 201 else mkResp 200,
    authFail := fun _ => false, rateLimit := 900 }

/-- Environment whose auth sign-in network call always raises. -/
def ctxAuthFail : Ctx :=
  { resp := fun _ => mkResp 200, authFail := fun _ => true, rateLimit := 900 }

/-- A non-scan enrichment with no blocks. -/
def enrichEv : Enrichment := { scanFlag := false, blocks := [] }

/-- A finding carrying one non-scan enrichment. -/
def findingEv : Finding := { id := "f1", enrichments := [enrichEv] }

/-- A scan report block with one result row. -/
def scanBlock0 : Block :=
  .scanReport "scan1" [{ dict := [("col", .str "v")], service_key := "sk" }]
    "t0" "t1" "popeye" "A"

/-- A scan-flagged enrichment holding one scan report block. -/
def enrichScan : Enrichment := { scanFlag := true, blocks := [scanBlock0] }

/-- A finding all of whose enrichments are scan-flagged. -/
def findingScan : Finding := { id := "f2", enrichments := [enrichScan] }

/-- A finding with no enrichments at all (its issue row is still written). -/
def findingEmpty : Finding := { id := "f3", enrichments := [] }

/-- A sample job entity. -/
def job0 : Entity := { dict := [("name", .str "j")], service_key := "jk" }

/-- A sample service. -/
def svc0 : ServiceInfo :=
  { name := "s", service_type := "Deployment", ns := "default",
    classification := "cls", deleted := false, service_key := "sk",
    config := none, total_pods := 1, ready_pods := 1 }

/-- The select request issued by `get_active_services`. -/
def servicesSelect (d : Dal) : Effect :=
  .selectReq "Services"
    [("account_id", "eq", .str d.account_id),
     ("cluster", "eq", .str d.cluster),
     ("deleted", "eq", .bool false)]

/-- The select request issued by `get_active_jobs`. -/
def jobsSelect (d : Dal) : Effect :=
  .selectReq "Jobs"
    [("account_id", "eq", .str d.account_id),
     ("cluster_id", "eq", .str d.cluster),
     ("deleted", "eq", .bool false)]

/-- The delete request issued by `remove_deleted_job`. -/
def jobsDelete (d : Dal) (j : Entity) : Effect :=
  .deleteReq "Jobs"
    [("account_id", "eq", .str d.account_id),
     ("cluster_id", "eq", .str d.cluster),
     ("service_key", "eq", .str j.service_key)]

/-- The RPC request issued by `publish_cluster_nodes`. -/
def clusterNodesRpc (d : Dal) (node_count : Nat) : Effect :=
  .rpcReq "update_cluster_node_count"
    [("_account_id", .str d.account_id),
     ("_cluster_id", .str d.cluster),
     ("_node_count", .nat node_count)]

/-!
Helper lemmas: unfolding equations for the monad, trace monotonicity of
the recovery hook, and characterizations of one run of each operation.
-/

/-- Unfolding of `bind` for the hand-rolled monad. -/
theorem bind_def {α β : Type} (x : M α) (f : α → M β) (ctx : Ctx) (s : St) :
  (x >>= f) ctx s = match x ctx s with
    | (s', .ok a) => f a ctx s'
    | (s', .error e) => (s', .error e) := rfl

/-- Unfolding of `pure` for the hand-rolled monad. -/
theorem pure_def {α : Type} (a : α) (ctx : Ctx) (s : St) :
  (pure a : M α) ctx s = (s, .ok a) := rfl

/-- `sign_in` only appends to the trace. -/
theorem mem_effects_sign_in (ctx : Ctx) (s : St) (x : Effect) (h : x ∈ s.effects) :
    x ∈ (sign_in ctx s).1.effects := by
  unfold sign_in authNetCall
  split
  · simp [h]
  · exact h

/-- `handle_supabase_error` only appends to the trace. -/
theorem mem_effects_handle (ctx : Ctx) (s : St) (x : Effect) (h : x ∈ s.effects) :
    x ∈ (handle_supabase_error ctx s).1.effects := by
  unfold handle_supabase_error
  exact mem_effects_sign_in _ _ _ (by simp [h])

/-- `handle_supabase_error` always records its invocation in the trace. -/
theorem handle_marker (ctx : Ctx) (s : St) :
    Effect.handleErrorInvoked ∈ (handle_supabase_error ctx s).1.effects := by
  unfold handle_supabase_error
  exact mem_effects_sign_in _ _ _ (by simp)

/-- `handle_supabase_error` never raises (swallows any `sign_in` failure). -/
theorem handle_ok (ctx : Ctx) (s : St) :
    (handle_supabase_error ctx s).2 = Except.ok () := rfl

/-- Everything `handle_supabase_error` appends to the trace is its own
marker or an auth round trip. -/
theorem handle_effects_split (ctx : Ctx) (s : St) :
    ∃ tail, (handle_supabase_error ctx s).1.effects = s.effects ++ tail ∧
      ∀ x ∈ tail, x = Effect.handleErrorInvoked ∨ x = Effect.authCall := by
  unfold handle_supabase_error sign_in authNetCall
  dsimp only
  split
  · refine ⟨[Effect.handleErrorInvoked, Effect.authCall], by simp, ?_⟩
    intro x hx
    simpa using hx
  · refine ⟨[Effect.handleErrorInvoked], by simp, ?_⟩
    intro x hx
    exact Or.inl (by simpa using hx)

/-- A trace element other than the recovery marker and the auth round trip
cannot appear through `handle_supabase_error`. -/
theorem notmem_handle (ctx : Ctx) (s : St) (x : Effect)
    (hx1 : x ≠ Effect.handleErrorInvoked) (hx2 : x ≠ Effect.authCall)
    (h : x ∉ s.effects) : x ∉ (handle_supabase_error ctx s).1.effects := by
  obtain ⟨tail, heq, htail⟩ := handle_effects_split ctx s
  rw [heq]
  intro hmem
  rcases List.mem_append.mp hmem with hm | hm
  · exact h hm
  · rcases htail x hm with h1 | h1
    · exact hx1 h1
    · exact hx2 h1

/-- One run of a single-request operation that raises on unexpected
status (the common shape of the publish/get operations). -/
theorem run_raise {α : Type} (e : Effect) (P : HttpResponse → Prop) [DecidablePred P]
    (val : HttpResponse → α) (ctx : Ctx) (s : St) :
    (httpCall e >>= fun res =>
      if P res then pure (val res)
      else handle_supabase_error >>= fun _ => throwErr DalError.opFailed) ctx s =
      (if P (ctx.resp s.httpCount)
       then (afterReq s e, Except.ok (val (ctx.resp s.httpCount)))
       else ((handle_supabase_error ctx (afterReq s e)).1, Except.error DalError.opFailed)) := by
  rcases hh : handle_supabase_error ctx (afterReq s e) with ⟨s2, r⟩
  have hr : r = Except.ok () := by rw [← handle_ok ctx _, hh]
  subst hr
  by_cases hc : P (ctx.resp s.httpCount)
  · simp only [bind_def, httpCall]
    rw [if_pos hc, if_pos hc]
    rfl
  · simp only [bind_def, httpCall]
    rw [if_neg hc, if_neg hc]
    simp only [bind_def]
    rw [hh]
    rfl

/-- One run of a single-request operation that only logs and invokes the
recovery hook on unexpected status. -/
theorem run_log (e : Effect) (P : HttpResponse → Prop) [DecidablePred P]
    (ctx : Ctx) (s : St) :
    (httpCall e >>= fun res =>
      if P res then pure () else handle_supabase_error) ctx s =
      (if P (ctx.resp s.httpCount)
       then (afterReq s e, Except.ok ())
       else ((handle_supabase_error ctx (afterReq s e)).1, Except.ok ())) := by
  rcases hh : handle_supabase_error ctx (afterReq s e) with ⟨s2, r⟩
  have hr : r = Except.ok () := by rw [← handle_ok ctx _, hh]
  subst hr
  by_cases hc : P (ctx.resp s.httpCount)
  · simp only [bind_def, httpCall]
    rw [if_pos hc, if_pos hc]
    rfl
  · simp only [bind_def, httpCall]
    rw [if_neg hc, if_neg hc]
    rw [hh]

/-- One run of a raw-request operation normalized by `g` that raises on
unexpected status (shape of `remove_deleted_job`). -/
theorem run_raise_norm (e : Effect) (g : HttpResponse → OperationResult)
    (P : OperationResult → Prop) [DecidablePred P] (ctx : Ctx) (s : St) :
    ((httpCall e >>= fun raw => pure (g raw)) >>= fun res =>
      if P res then pure ()
      else handle_supabase_error >>= fun _ => throwErr DalError.opFailed) ctx s =
      (if P (g (ctx.resp s.httpCount))
       then (afterReq s e, Except.ok ())
       else ((handle_supabase_error ctx (afterReq s e)).1, Except.error DalError.opFailed)) := by
  rcases hh : handle_supabase_error ctx (afterReq s e) with ⟨s2, r⟩
  have hr : r = Except.ok () := by rw [← handle_ok ctx _, hh]
  subst hr
  by_cases hc : P (g (ctx.resp s.httpCount))
  · simp only [bind_def, httpCall, pure_def]
    rw [if_pos hc, if_pos hc]
    rfl
  · simp only [bind_def, httpCall, pure_def]
    rw [if_neg hc, if_neg hc]
    simp only [bind_def]
    rw [hh]
    rfl

/-- One run of a raw-request operation normalized by `g` that only logs
and invokes recovery on unexpected status (shape of
`publish_cluster_nodes`). -/
theorem run_log_norm (e : Effect) (g : HttpResponse → OperationResult)
    (P : OperationResult → Prop) [DecidablePred P] (ctx : Ctx) (s : St) :
    ((httpCall e >>= fun raw => pure (g raw)) >>= fun res =>
      if P res then pure () else handle_supabase_error) ctx s =
      (if P (g (ctx.resp s.httpCount))
       then (afterReq s e, Except.ok ())
       else ((handle_supabase_error ctx (afterReq s e)).1, Except.ok ())) := by
  rcases hh : handle_supabase_error ctx (afterReq s e) with ⟨s2, r⟩
  have hr : r = Except.ok () := by rw [← handle_ok ctx _, hh]
  subst hr
  by_cases hc : P (g (ctx.resp s.httpCount))
  · simp only [bind_def, httpCall, pure_def]
    rw [if_pos hc, if_pos hc]
    rfl
  · simp only [bind_def, httpCall, pure_def]
    rw [if_neg hc, if_neg hc]
    rw [hh]

/-- `__delete_patch` preserves the HTTP status. -/
theorem deletePatch_status (r : HttpResponse) :
    (deletePatch r).status_code = r.status_code := by
  cases h : r.parsed <;> simp [deletePatch, h]

/-- `__rpc_patch` preserves the HTTP status. -/
theorem rpcPatch_status (r : HttpResponse) :
    (rpcPatch r).status_code = r.status_code := by
  by_cases hc : r.content = "" <;> cases h : r.parsed <;> simp [rpcPatch, h, hc]

/-- Characterization of one run of `persist_services` on a non-empty list. -/
theorem persist_services_run (d : Dal) (a : ServiceInfo) (l : List ServiceInfo)
    (ctx : Ctx) (s : St) :
    persist_services d (a :: l) ctx s =
      (if (ctx.resp s.httpCount).status_code ∈ [200, 201]
       then (afterReq s (.insertReq "Services" ((a :: l).map (to_service d)) true), Except.ok ())
       else ((handle_supabase_error ctx
          (afterReq s (.insertReq "Services" ((a :: l).map (to_service d)) true))).1,
         Except.error DalError.opFailed)) :=
  run_raise _ (fun res => res.status_code ∈ [200, 201]) (fun _ => ()) ctx s

/-- Characterization of one run of `publish_nodes` on a non-empty list. -/
theorem publish_nodes_run (d : Dal) (a : Entity) (l : List Entity) (ctx : Ctx) (s : St) :
    publish_nodes d (a :: l) ctx s =
      (if (ctx.resp s.httpCount).status_code ∈ [200, 201]
       then (afterReq s (.insertReq "Nodes" ((a :: l).map (to_db_node d)) true), Except.ok ())
       else ((handle_supabase_error ctx
          (afterReq s (.insertReq "Nodes" ((a :: l).map (to_db_node d)) true))).1,
         Except.error DalError.opFailed)) :=
  run_raise _ (fun res => res.status_code ∈ [200, 201]) (fun _ => ()) ctx s

/-- Characterization of one run of `publish_jobs` on a non-empty list. -/
theorem publish_jobs_run (d : Dal) (a : Entity) (l : List Entity) (ctx : Ctx) (s : St) :
    publish_jobs d (a :: l) ctx s =
      (if (ctx.resp s.httpCount).status_code ∈ [200, 201]
       then (afterReq s (.insertReq "Jobs" ((a :: l).map (to_db_job d)) true), Except.ok ())
       else ((handle_supabase_error ctx
          (afterReq s (.insertReq "Jobs" ((a :: l).map (to_db_job d)) true))).1,
         Except.error DalError.opFailed)) :=
  run_raise _ (fun res => res.status_code ∈ [200, 201]) (fun _ => ()) ctx s

/-- Characterization of one run of `publish_helm_releases` on a non-empty
list. -/
theorem publish_helm_releases_run (d : Dal) (a : Entity) (l : List Entity)
    (ctx : Ctx) (s : St) :
    publish_helm_releases d (a :: l) ctx s =
      (if (ctx.resp s.httpCount).status_code ∈ [200, 201]
       then (afterReq s (.insertReq "HelmReleases" ((a :: l).map (to_db_helm_release d)) true),
         Except.ok ())
       else ((handle_supabase_error ctx
          (afterReq s (.insertReq "HelmReleases" ((a :: l).map (to_db_helm_release d)) true))).1,
         Except.error DalError.opFailed)) :=
  run_raise _ (fun res => res.status_code ∈ [200, 201]) (fun _ => ()) ctx s

/-- Characterization of one run of `publish_namespaces` on a non-empty
list. -/
theorem publish_namespaces_run (d : Dal) (a : Entity) (l : List Entity)
    (ctx : Ctx) (s : St) :
    publish_namespaces d (a :: l) ctx s =
      (if (ctx.resp s.httpCount).status_code ∈ [200, 201]
       then (afterReq s (.insertReq "Namespaces" ((a :: l).map (to_db_namespace d)) true),
         Except.ok ())
       else ((handle_supabase_error ctx
          (afterReq s (.insertReq "Namespaces" ((a :: l).map (to_db_namespace d)) true))).1,
         Except.error DalError.opFailed)) :=
  run_raise _ (fun res => res.status_code ∈ [200, 201]) (fun _ => ()) ctx s

/-- Characterization of one run of `get_active_services`. -/
theorem get_active_services_run (d : Dal) (ctx : Ctx) (s : St) :
    get_active_services d ctx s =
      (if (ctx.resp s.httpCount).status_code ∈ [200]
       then (afterReq s (servicesSelect d), Except.ok (ctx.resp s.httpCount).rows)
       else ((handle_supabase_error ctx (afterReq s (servicesSelect d))).1,
         Except.error DalError.opFailed)) :=
  run_raise _ (fun res => res.status_code ∈ [200]) (fun res => res.rows) ctx s

/-- Characterization of one run of `get_active_jobs`. -/
theorem get_active_jobs_run (d : Dal) (ctx : Ctx) (s : St) :
    get_active_jobs d ctx s =
      (if (ctx.resp s.httpCount).status_code ∈ [200]
       then (afterReq s (jobsSelect d), Except.ok (ctx.resp s.httpCount).rows)
       else ((handle_supabase_error ctx (afterReq s (jobsSelect d))).1,
         Except.error DalError.opFailed)) :=
  run_raise _ (fun res => res.status_code ∈ [200]) (fun res => res.rows) ctx s

/-- Characterization of one run of `remove_deleted_job` on an actual job. -/
theorem remove_deleted_job_run (d : Dal) (j : Entity) (ctx : Ctx) (s : St) :
    remove_deleted_job d (some j) ctx s =
      (if (deletePatch (ctx.resp s.httpCount)).status_code ∈ [204, 200, 202]
       then (afterReq s (jobsDelete d j), Except.ok ())
       else ((handle_supabase_error ctx (afterReq s (jobsDelete d j))).1,
         Except.error DalError.opFailed)) :=
  run_raise_norm _ deletePatch (fun res => res.status_code ∈ [204, 200, 202]) ctx s

/-- Characterization of one run of `publish_cluster_status`. -/
theorem publish_cluster_status_run (d : Dal) (cs : ClusterStatus) (ctx : Ctx) (s : St) :
    publish_cluster_status d cs ctx s =
      (if (ctx.resp s.httpCount).status_code ∈ [200, 201]
       then (afterReq s (.insertReq "ClustersStatus" [to_db_cluster_status cs] true), Except.ok ())
       else ((handle_supabase_error ctx
          (afterReq s (.insertReq "ClustersStatus" [to_db_cluster_status cs] true))).1,
         Except.ok ())) :=
  run_log _ (fun res => res.status_code ∈ [200, 201]) ctx s

/-- Characterization of one run of `publish_cluster_nodes`. -/
theorem publish_cluster_nodes_run (d : Dal) (node_count : Nat) (ctx : Ctx) (s : St) :
    publish_cluster_nodes d node_count ctx s =
      (if (rpcPatch (ctx.resp s.httpCount)).status_code ∈ [200, 201, 204]
       then (afterReq s (clusterNodesRpc d node_count), Except.ok ())
       else ((handle_supabase_error ctx (afterReq s (clusterNodesRpc d node_count))).1,
         Except.ok ())) :=
  run_log_norm _ rpcPatch (fun res => res.status_code ∈ [200, 201, 204]) ctx s

/-- Characterization of one run of `persist_finding` on a finding with no
enrichments: only the issue insert happens; a non-201 status triggers
recovery but never raises. -/
theorem persist_finding_noenrich_run (d : Dal) (fid : String) (ctx : Ctx) (s : St) :
    persist_finding d { id := fid, enrichments := [] } ctx s =
      (if (ctx.resp s.httpCount).status_code = 201
       then (afterReq s (.insertReq "Issues"
          [to_finding_json d.account_id d.cluster { id := fid, enrichments := [] }] false),
         Except.ok ())
       else ((handle_supabase_error ctx (afterReq s (.insertReq "Issues"
          [to_finding_json d.account_id d.cluster { id := fid, enrichments := [] }] false))).1,
         Except.ok ())) :=
  run_log _ (fun res => res.status_code = 201) ctx s

theorem getK_setK_same (r : WireRow) (k : String) (v : DbVal) :
    getK (setK r k v) k = some v := by
  simp [getK, setK]

theorem find?_filter_ne (r : WireRow) (k k' : String) (h : k ≠ k') :
    List.find? (fun p => p.1 = k) (r.filter (fun p => p.1 ≠ k')) =
      List.find? (fun p => p.1 = k) r := by
  induction r with
  | nil => rfl
  | cons q rest ih =>
    rw [List.filter_cons]
    by_cases hq2 : q.1 = k'
    · have hd : (decide (q.1 ≠ k')) = false := by simp [hq2]
      rw [hd]
      simp only [Bool.false_eq_true, if_false]
      rw [List.find?_cons_of_neg _ (by simp [hq2, Ne.symm h])]
      exact ih
    · have hd : (decide (q.1 ≠ k')) = true := by simp [hq2]
      rw [hd]
      simp only [if_true]
      by_cases hq : q.1 = k
      · rw [List.find?_cons_of_pos _ (by simp [hq]), List.find?_cons_of_pos _ (by simp [hq])]
      · rw [List.find?_cons_of_neg _ (by simp [hq]), List.find?_cons_of_neg _ (by simp [hq])]
        exact ih

theorem getK_setK_ne (r : WireRow) (k k' : String) (v : DbVal) (h : k ≠ k') :
    getK (setK r k' v) k = getK r k := by
  unfold getK setK
  rw [List.find?_cons_of_neg _ (by simp [Ne.symm h]), find?_filter_ne r k k' h]

theorem persist_scan_step (d : Dal) (scan_id : String) (results : List Entity)
    (t0 t1 ty gr : String) (rest : List Block) (ctx : Ctx) (s : St) :
    persist_scan_blocks d (Block.scanReport scan_id results t0 t1 ty gr :: rest) ctx s =
      (if (ctx.resp s.httpCount).status_code ∈ [200, 201] then
        (if (rpcPatch (ctx.resp (s.httpCount + 1))).status_code ∈ [200, 201, 204] then
          persist_scan_blocks d rest ctx
            (afterReq (afterReq s (.insertReq "ScansResults"
              (results.map (to_db_scanResult d)) false))
              (.rpcReq "insert_scan_meta"
                [("_account_id", .str d.account_id), ("_cluster", .str d.cluster),
                 ("_scan_id", .str scan_id), ("_scan_start", .str t0), ("_scan_end", .str t1),
                 ("_type", .str ty), ("_grade", .str gr)]))
         else ((handle_supabase_error ctx
            (afterReq (afterReq s (.insertReq "ScansResults"
              (results.map (to_db_scanResult d)) false))
              (.rpcReq "insert_scan_meta"
                [("_account_id", .str d.account_id), ("_cluster", .str d.cluster),
                 ("_scan_id", .str scan_id), ("_scan_start", .str t0), ("_scan_end", .str t1),
                 ("_type", .str ty), ("_grade", .str gr)]))).1,
           Except.error DalError.opFailed))
       else ((handle_supabase_error ctx
          (afterReq s (.insertReq "ScansResults" (results.map (to_db_scanResult d)) false))).1,
         Except.error DalError.opFailed)) := by
  by_cases hc1 : (ctx.resp s.httpCount).status_code ∈ [200, 201]
  · rw [if_pos hc1]
    by_cases hc2 : (rpcPatch (ctx.resp (s.httpCount + 1))).status_code ∈ [200, 201, 204]
    · rw [if_pos hc2]
      simp only [persist_scan_blocks, bind_def, httpCall, pure_def, rpc_patch_call]
      rw [if_pos hc1]
      simp only [httpCall, pure_def, bind_def, afterReq]
      rw [if_pos hc2]
      rfl
    · rw [if_neg hc2]
      rcases hh : handle_supabase_error ctx _ with ⟨s2, r⟩
      have hr : r = Except.ok () := by rw [← handle_ok ctx _, hh]
      subst hr
      simp only [afterReq] at hh
      simp only [persist_scan_blocks, bind_def, httpCall, pure_def, rpc_patch_call]
      rw [if_pos hc1]
      simp only [httpCall, pure_def, bind_def, afterReq]
      rw [if_neg hc2]
      simp only [bind_def]
      rw [hh]
      rfl
  · rw [if_neg hc1]
    rcases hh : handle_supabase_error ctx _ with ⟨s2, r⟩
    have hr : r = Except.ok () := by rw [← handle_ok ctx _, hh]
    subst hr
    simp only [persist_scan_blocks, bind_def, httpCall, pure_def, rpc_patch_call]
    rw [if_neg hc1]
    simp only [bind_def]
    rw [hh]
    rfl

theorem notmem_afterReq (s : St) (e : Effect) (x : Effect) (hx : x ≠ e)
    (h : x ∉ s.effects) : x ∉ (afterReq s e).effects := by
  simp only [afterReq, List.mem_append, List.mem_singleton]
  rintro (hm | hm)
  · exact h hm
  · exact hx hm

theorem persist_scan_blocks_no_write (d : Dal) (ctx : Ctx) (t : String)
    (rows : List WireRow) (u : Bool) (ht : t ≠ "ScansResults") :
    ∀ (blocks : List Block) (s : St),
      Effect.insertReq t rows u ∉ s.effects →
      Effect.insertReq t rows u ∉ (persist_scan_blocks d blocks ctx s).1.effects := by
  intro blocks
  induction blocks with
  | nil => intro s h; exact h
  | cons b rest ih =>
    intro s h
    cases b with
    | otherBlock => exact ih s h
    | scanReport scan_id results t0 t1 ty gr =>
      rw [persist_scan_step]
      have h1 : Effect.insertReq t rows u ∉
          (afterReq s (.insertReq "ScansResults" (results.map (to_db_scanResult d)) false)).effects :=
        notmem_afterReq _ _ _ (by simp [ht]) h
      have h2 : Effect.insertReq t rows u ∉
          (afterReq (afterReq s (.insertReq "ScansResults" (results.map (to_db_scanResult d)) false))
            (.rpcReq "insert_scan_meta"
              [("_account_id", .str d.account_id), ("_cluster", .str d.cluster),
               ("_scan_id", .str scan_id), ("_scan_start", .str t0), ("_scan_end", .str t1),
               ("_type", .str ty), ("_grade", .str gr)])).effects :=
        notmem_afterReq _ _ _ (by simp) h1
      by_cases hc1 : (ctx.resp s.httpCount).status_code ∈ [200, 201]
      · rw [if_pos hc1]
        by_cases hc2 : (rpcPatch (ctx.resp (s.httpCount + 1))).status_code ∈ [200, 201, 204]
        · rw [if_pos hc2]
          exact ih _ h2
        · rw [if_neg hc2]
          exact notmem_handle _ _ _ (by simp) (by simp) h2
      · rw [if_neg hc1]
        exact notmem_handle _ _ _ (by simp) (by simp) h1

theorem persist_scans_loop_no_write (d : Dal) (ctx : Ctx) (t : String)
    (rows : List WireRow) (u : Bool) (ht : t ≠ "ScansResults") :
    ∀ (ens : List Enrichment) (s : St),
      Effect.insertReq t rows u ∉ s.effects →
      Effect.insertReq t rows u ∉ (persist_scans_loop d ens ctx s).1.effects := by
  intro ens
  induction ens with
  | nil => intro s h; exact h
  | cons en rest ih =>
    intro s h
    have hstep := persist_scan_blocks_no_write d ctx t rows u ht en.blocks s h
    rcases hb : persist_scan_blocks d en.blocks ctx s with ⟨s2, r⟩
    have hs2 : Effect.insertReq t rows u ∉ s2.effects := by
      rw [hb] at hstep; exact hstep
    simp only [persist_scans_loop, persist_scan, bind_def, hb]
    cases r with
    | ok a => exact ih s2 hs2
    | error e => exact hs2

theorem persist_finding_all_scan (d : Dal) (f : Finding) (ctx : Ctx) (s : St)
    (hall : ∀ e ∈ f.enrichments, e.scanFlag = true) (hne : f.enrichments ≠ []) :
    persist_finding d f ctx s = persist_scans_loop d f.enrichments ctx s := by
  have hp : f.enrichments.partition (fun e => e.scanFlag) = (f.enrichments, []) := by
    rw [List.partition_eq_filter_filter]
    congr 1
    · exact List.filter_eq_self.mpr (fun a ha => hall a ha)
    · simpa using fun a ha => hall a ha
  have hcond : 0 < f.enrichments.length ∧ ([] : List Enrichment).length = 0 :=
    ⟨List.length_pos.mpr hne, rfl⟩
  unfold persist_finding
  simp only [hp, eq_true hcond, if_true]
  simp only [bind_def]
  rcases hb : persist_scans_loop d f.enrichments ctx s with ⟨s2, r⟩
  cases r with
  | ok a => rfl
  | error e => rfl

theorem sign_in_fires (ctx : Ctx) (s : St) (h : s.sign_in_time + ctx.rateLimit < s.now) :
    sign_in ctx s =
      ({ s with
          sign_in_time := s.now
          authCount := s.authCount + 1
          effects := s.effects ++ [Effect.authCall] },
        if ctx.authFail s.authCount then Except.error DalError.authFailed else Except.ok ()) := by
  unfold sign_in authNetCall
  rw [if_pos h]

theorem sign_in_noop (ctx : Ctx) (s : St) (h : ¬ s.sign_in_time + ctx.rateLimit < s.now) :
    sign_in ctx s = (s, Except.ok ()) := by
  unfold sign_in
  rw [if_neg h]


/-!
The claims.
-/

/-- C1: a `sign_in` call made past the cooldown performs one
identity-service network call; a second call within
`SUPABASE_LOGIN_RATE_LIMIT_SEC` seconds of the recorded attempt is a
silent no-op (the state is untouched apart from the clock); a third call
after the cooldown has elapsed performs a second network call, so the
three calls make exactly two identity-service round trips. -/
theorem c1_sign_in_cooldown (ctx : Ctx) (s0 : St) (t1 t2 t3 : Nat)
    (h1 : s0.sign_in_time + ctx.rateLimit < t1)
    (h2 : t2 ≤ t1 + ctx.rateLimit)
    (h3 : t1 + ctx.rateLimit < t3) :
    (sign_in ctx { s0 with now := t1 }).1.authCount = s0.authCount + 1 ∧
    (sign_in ctx { (sign_in ctx { s0 with now := t1 }).1 with now := t2 }).1 =
      { (sign_in ctx { s0 with now := t1 }).1 with now := t2 } ∧
    (sign_in ctx
      { (sign_in ctx { (sign_in ctx { s0 with now := t1 }).1 with now := t2 }).1 with
        now := t3 }).1.authCount = s0.authCount + 2 := by
  have e1 := sign_in_fires ctx { s0 with now := t1 } (by simpa using h1)
  have e2 := sign_in_noop ctx
    { (sign_in ctx { s0 with now := t1 }).1 with now := t2 }
    (by rw [e1]; simpa using Nat.not_lt.mpr h2)
  refine ⟨by rw [e1], congrArg Prod.fst e2, ?_⟩
  rw [e2]
  rw [e1]
  rw [sign_in_fires ctx _ (by simpa using h3)]

/-- Witness for C1 at concrete times 1000, 1500, 2000 with a 900-second
cooldown. -/
theorem c1_witness :
    (sign_in ctx200 { st0 with now := 1000 }).1.authCount = st0.authCount + 1 ∧
    (sign_in ctx200 { (sign_in ctx200 { st0 with now := 1000 }).1 with now := 1500 }).1 =
      { (sign_in ctx200 { st0 with now := 1000 }).1 with now := 1500 } ∧
    (sign_in ctx200
      { (sign_in ctx200 { (sign_in ctx200 { st0 with now := 1000 }).1 with now := 1500 }).1 with
        now := 2000 }).1.authCount = st0.authCount + 2 :=
  c1_sign_in_cooldown ctx200 st0 1000 1500 2000 (by decide) (by decide) (by decide)

/-- C9: `sign_in` records the attempt time before the identity-service
round trip, so even when that round trip raises, a second call within the
cooldown of the failed attempt is a silent no-op rather than a retry. -/
theorem c9_failed_sign_in_consumes_cooldown (ctx : Ctx) (s0 : St) (t1 t2 : Nat)
    (h1 : s0.sign_in_time + ctx.rateLimit < t1)
    (hfail : ctx.authFail s0.authCount = true)
    (h2 : t2 ≤ t1 + ctx.rateLimit) :
    (sign_in ctx { s0 with now := t1 }).2 = Except.error DalError.authFailed ∧
    (sign_in ctx { s0 with now := t1 }).1.sign_in_time = t1 ∧
    sign_in ctx { (sign_in ctx { s0 with now := t1 }).1 with now := t2 } =
      ({ (sign_in ctx { s0 with now := t1 }).1 with now := t2 }, Except.ok ()) := by
  have e1 := sign_in_fires ctx { s0 with now := t1 } (by simpa using h1)
  refine ⟨by rw [e1]; simpa using hfail, by rw [e1], ?_⟩
  exact sign_in_noop ctx _ (by rw [e1]; simpa using Nat.not_lt.mpr h2)

/-- Witness for C9: the auth call fails at time 1000 and the retry at
time 1500 is suppressed. -/
theorem c9_witness :
    (sign_in ctxAuthFail { st0 with now := 1000 }).2 = Except.error DalError.authFailed ∧
    (sign_in ctxAuthFail { st0 with now := 1000 }).1.sign_in_time = 1000 ∧
    sign_in ctxAuthFail { (sign_in ctxAuthFail { st0 with now := 1000 }).1 with now := 1500 } =
      ({ (sign_in ctxAuthFail { st0 with now := 1000 }).1 with now := 1500 }, Except.ok ()) :=
  c9_failed_sign_in_consumes_cooldown ctxAuthFail st0 1000 1500 (by decide) (by decide) (by decide)

/-- C5: `handle_supabase_error` never raises — for any environment
(including one whose auth call always throws) it returns `ok`, having
recorded the recovery attempt. -/
theorem c5_handle_error_never_raises (ctx : Ctx) (s : St) :
    (handle_supabase_error ctx s).2 = Except.ok () ∧
    Effect.handleErrorInvoked ∈ (handle_supabase_error ctx s).1.effects :=
  ⟨handle_ok ctx s, handle_marker ctx s⟩

/-- C7: every publish operation called with an empty list returns
immediately, leaving the state untouched — zero network calls and no
error. -/
theorem c7_empty_publish_noop (d : Dal) (ctx : Ctx) (s : St) :
    persist_services d [] ctx s = (s, Except.ok ()) ∧
    publish_nodes d [] ctx s = (s, Except.ok ()) ∧
    publish_jobs d [] ctx s = (s, Except.ok ()) ∧
    publish_helm_releases d [] ctx s = (s, Except.ok ()) ∧
    publish_namespaces d [] ctx s = (s, Except.ok ()) :=
  ⟨rfl, rfl, rfl, rfl, rfl⟩

/-- C10: `_get_auth_headers` is total; when there is no auth client, no
current session, or an empty access token, the static key is used as the
bearer token, and the Authorization header is always populated. -/
theorem c10_auth_headers_total (c : ClientState) :
    ((c.auth = none ∨ c.auth = some none ∨
        (∃ t, c.auth = some (some t) ∧ t.access_token = "")) →
      get_auth_headers c =
        [("apiKey", c.supabase_key), ("Authorization", "Bearer " ++ c.supabase_key)]) ∧
    (∃ tok, get_auth_headers c =
      [("apiKey", c.supabase_key), ("Authorization", "Bearer " ++ tok)]) := by
  constructor
  · rintro (h | h | ⟨t, h, ht⟩)
    · simp [get_auth_headers, h]
    · simp [get_auth_headers, h]
    · simp [get_auth_headers, h, ht]
  · rcases ha : c.auth with _ | a
    · exact ⟨c.supabase_key, by simp [get_auth_headers, ha]⟩
    · rcases a with _ | t
      · exact ⟨c.supabase_key, by simp [get_auth_headers, ha]⟩
      · by_cases ht : t.access_token = ""
        · exact ⟨c.supabase_key, by simp [get_auth_headers, ha, ht]⟩
        · exact ⟨t.access_token, by simp [get_auth_headers, ha, ht]⟩

/-- Witness for C10: with no auth client at all, the headers fall back to
the static key. -/
theorem c10_witness :
    get_auth_headers { supabase_key := "key", auth := none } =
      [("apiKey", "key"), ("Authorization", "Bearer " ++ "key")] :=
  (c10_auth_headers_total { supabase_key := "key", auth := none }).1 (Or.inl rfl)

/-- C3 counterexample: on the delete path a 204 response with an empty
body does attempt the JSON parse, which fails and is caught, so the
result is recorded with `parse_failure = true` — contradicting the
claim's `parse_failure = false` for 204 empty-body responses. (Data is
still empty and the status still 204, and nothing is raised.) -/
theorem c3_counterexample :
    deletePatch { status_code := 204, content := "", parsed := none, rows := [] } =
      { data := RespData.emptyStr, status_code := 204, parse_failure := true } := rfl

/-- C3 amended: the delete and RPC normalizers never raise; a body that
cannot be parsed is caught locally and recorded with `parse_failure =
true` and empty data; the returned `status_code` always equals the HTTP
status. A 204 empty-body response yields `parse_failure = false` only on
the RPC path (which skips the parse); on the delete path the parse of the
empty body is attempted and fails, so `parse_failure = true` there, with
data still empty and the status still 204. -/
theorem c3_amended_normalizer_total (r : HttpResponse) :
    (deletePatch r).status_code = r.status_code ∧
    (rpcPatch r).status_code = r.status_code ∧
    (r.parsed = none →
      (deletePatch r).parse_failure = true ∧ (deletePatch r).data = RespData.emptyStr) ∧
    (∀ v, r.parsed = some v →
      (deletePatch r).parse_failure = false ∧ (deletePatch r).data = RespData.jsonVal v) ∧
    (r.content = "" →
      rpcPatch r =
        { data := RespData.emptyObj, status_code := r.status_code, parse_failure := false }) ∧
    (r.content ≠ "" → r.parsed = none →
      (rpcPatch r).parse_failure = true ∧ (rpcPatch r).data = RespData.emptyObj) ∧
    (∀ v, r.content ≠ "" → r.parsed = some v →
      (rpcPatch r).parse_failure = false ∧ (rpcPatch r).data = RespData.jsonVal v) := by
  refine ⟨deletePatch_status r, rpcPatch_status r, ?_, ?_, ?_, ?_, ?_⟩
  · intro h
    simp [deletePatch, h]
  · intro v h
    simp [deletePatch, h]
  · intro h
    simp [rpcPatch, h]
  · intro hc h
    simp [rpcPatch, hc, h]
  · intro v hc h
    simp [rpcPatch, hc, h]

/-- Witness for C3 (amended) at a 204 empty-body response: the delete
path records a caught parse failure, the RPC path records none. -/
theorem c3_witness :
    ((deletePatch { status_code := 204, content := "", parsed := none, rows := [] }).parse_failure
        = true ∧
      (deletePatch { status_code := 204, content := "", parsed := none, rows := [] }).data
        = RespData.emptyStr) ∧
    rpcPatch { status_code := 204, content := "", parsed := none, rows := [] } =
      { data := RespData.emptyObj, status_code := 204, parse_failure := false } :=
  ⟨(c3_amended_normalizer_total _).2.2.1 rfl,
   (c3_amended_normalizer_total
     { status_code := 204, content := "", parsed := none, rows := [] }).2.2.2.2.1 rfl⟩

/-- C4 counterexample: the claim says select operations accept
{200, 201}, but `get_active_services` raises on a 201 response — its
accepted set is exactly {200}. -/
theorem c4_counterexample :
    (ctx201.resp st0.httpCount).status_code = 201 ∧
    (get_active_services d0 ctx201 st0).2 = Except.error DalError.opFailed :=
  ⟨rfl, rfl⟩

/-- C4 amended: each operation classifies against its own accepted set:
selects accept exactly {200}; batched insert/upserts accept exactly
{200, 201}; delete accepts exactly {200, 202, 204}; RPC accepts exactly
{200, 201, 204}; the single-row issue insert of `persist_finding` accepts
exactly {201} (logging and triggering recovery, not raising, otherwise). -/
theorem c4_amended_status_sets (ctx : Ctx) (s : St) (d : Dal) (a : ServiceInfo)
    (l : List ServiceInfo) (j : Entity) (n : Nat) (fid : String)
    (hm : Effect.handleErrorInvoked ∉ s.effects) :
    ((get_active_services d ctx s).2 = Except.error DalError.opFailed ↔
      (ctx.resp s.httpCount).status_code ∉ [200]) ∧
    ((persist_services d (a :: l) ctx s).2 = Except.error DalError.opFailed ↔
      (ctx.resp s.httpCount).status_code ∉ [200, 201]) ∧
    ((remove_deleted_job d (some j) ctx s).2 = Except.error DalError.opFailed ↔
      (ctx.resp s.httpCount).status_code ∉ [204, 200, 202]) ∧
    ((publish_cluster_nodes d n ctx s).2 = Except.ok () ∧
      (Effect.handleErrorInvoked ∈ (publish_cluster_nodes d n ctx s).1.effects ↔
        (ctx.resp s.httpCount).status_code ∉ [200, 201, 204])) ∧
    ((persist_finding d { id := fid, enrichments := [] } ctx s).2 = Except.ok () ∧
      (Effect.handleErrorInvoked ∈
          (persist_finding d { id := fid, enrichments := [] } ctx s).1.effects ↔
        (ctx.resp s.httpCount).status_code ≠ 201)) := by
  refine ⟨?_, ?_, ?_, ?_, ?_⟩
  · rw [get_active_services_run]
    by_cases hc : (ctx.resp s.httpCount).status_code ∈ [200]
    · rw [if_pos hc]
      simp only [List.mem_singleton] at hc
      simp [hc]
    · rw [if_neg hc]
      simp only [List.mem_singleton] at hc
      simp [hc]
  · rw [persist_services_run]
    by_cases hc : (ctx.resp s.httpCount).status_code ∈ [200, 201]
    · rw [if_pos hc]; simp [hc]
    · rw [if_neg hc]; simp [hc]
  · rw [remove_deleted_job_run]
    rw [deletePatch_status]
    by_cases hc : (ctx.resp s.httpCount).status_code ∈ [204, 200, 202]
    · rw [if_pos hc]; simp [hc]
    · rw [if_neg hc]; simp [hc]
  · rw [publish_cluster_nodes_run]
    rw [rpcPatch_status]
    by_cases hc : (ctx.resp s.httpCount).status_code ∈ [200, 201, 204]
    · rw [if_pos hc]
      refine ⟨rfl, ?_⟩
      simp only [afterReq, List.mem_append, List.mem_singleton]
      constructor
      · rintro (hmem | hmem)
        · exact absurd hmem hm
        · cases hmem
      · intro hbad; exact absurd hc hbad
    · rw [if_neg hc]
      exact ⟨rfl, ⟨fun _ => hc, fun _ => handle_marker _ _⟩⟩
  · rw [persist_finding_noenrich_run]
    by_cases hc : (ctx.resp s.httpCount).status_code = 201
    · rw [if_pos hc]
      refine ⟨rfl, ?_⟩
      simp only [afterReq, List.mem_append, List.mem_singleton]
      constructor
      · rintro (hmem | hmem)
        · exact absurd hmem hm
        · cases hmem
      · intro hbad; exact absurd hc hbad
    · rw [if_neg hc]
      exact ⟨rfl, ⟨fun _ => hc, fun _ => handle_marker _ _⟩⟩

/-- Witness for C4 (amended): the select classification at a concrete
200-status environment. -/
theorem c4_witness :
    (get_active_services d0 ctx200 st0).2 = Except.error DalError.opFailed ↔
      (ctx200.resp st0.httpCount).status_code ∉ [200] :=
  (c4_amended_status_sets ctx200 st0 d0 svc0 [] job0 3 "f" (by decide)).1

/-- C2 counterexample: `persist_finding` with one non-scan enrichment
whose evidence insert is answered 500 (outside the expected set {201})
completes without ever invoking `handle_supabase_error` — the
per-evidence failure is only logged, so the claim fails on this path. -/
theorem c2_counterexample :
    (ctxEv.resp 0).status_code = 500 ∧
    (persist_finding d0 findingEv ctxEv st0).2 = Except.ok () ∧
    Effect.handleErrorInvoked ∉ (persist_finding d0 findingEv ctxEv st0).1.effects ∧
    Effect.insertReq "Evidence"
        [to_evidence_json d0.account_id d0.cluster d0.sink_name d0.signing_key
          findingEv.id enrichEv] false
      ∈ (persist_finding d0 findingEv ctxEv st0).1.effects :=
  ⟨rfl, rfl, by decide, by decide⟩

/-- C2 amended: every operation that observes an unexpected HTTP status
triggers one rate-limited re-authentication attempt before raising, or —
for the log-and-continue paths (`publish_cluster_status`,
`publish_cluster_nodes`, the issue insert of `persist_finding`) — before
completing, EXCEPT the per-evidence-row inserts inside `persist_finding`,
which log the failure and continue without invoking `handle_error`. -/
theorem c2_amended_reauth_on_failure (ctx : Ctx) (s : St) (d : Dal) (a : ServiceInfo)
    (l : List ServiceInfo) (j : Entity) (cs : ClusterStatus) (n : Nat) (fid : String) :
    ((ctx.resp s.httpCount).status_code ∉ [200] →
      (get_active_services d ctx s).2 = Except.error DalError.opFailed ∧
      Effect.handleErrorInvoked ∈ (get_active_services d ctx s).1.effects) ∧
    ((ctx.resp s.httpCount).status_code ∉ [200, 201] →
      (persist_services d (a :: l) ctx s).2 = Except.error DalError.opFailed ∧
      Effect.handleErrorInvoked ∈ (persist_services d (a :: l) ctx s).1.effects) ∧
    ((ctx.resp s.httpCount).status_code ∉ [204, 200, 202] →
      (remove_deleted_job d (some j) ctx s).2 = Except.error DalError.opFailed ∧
      Effect.handleErrorInvoked ∈ (remove_deleted_job d (some j) ctx s).1.effects) ∧
    ((ctx.resp s.httpCount).status_code ∉ [200, 201] →
      (publish_cluster_status d cs ctx s).2 = Except.ok () ∧
      Effect.handleErrorInvoked ∈ (publish_cluster_status d cs ctx s).1.effects) ∧
    ((ctx.resp s.httpCount).status_code ∉ [200, 201, 204] →
      (publish_cluster_nodes d n ctx s).2 = Except.ok () ∧
      Effect.handleErrorInvoked ∈ (publish_cluster_nodes d n ctx s).1.effects) ∧
    ((ctx.resp s.httpCount).status_code ≠ 201 →
      (persist_finding d { id := fid, enrichments := [] } ctx s).2 = Except.ok () ∧
      Effect.handleErrorInvoked ∈
        (persist_finding d { id := fid, enrichments := [] } ctx s).1.effects) := by
  refine ⟨?_, ?_, ?_, ?_, ?_, ?_⟩
  · intro hc
    rw [get_active_services_run, if_neg hc]
    exact ⟨rfl, handle_marker _ _⟩
  · intro hc
    rw [persist_services_run, if_neg hc]
    exact ⟨rfl, handle_marker _ _⟩
  · intro hc
    rw [remove_deleted_job_run]
    rw [deletePatch_status]
    rw [if_neg hc]
    exact ⟨rfl, handle_marker _ _⟩
  · intro hc
    rw [publish_cluster_status_run, if_neg hc]
    exact ⟨rfl, handle_marker _ _⟩
  · intro hc
    rw [publish_cluster_nodes_run]
    rw [rpcPatch_status]
    rw [if_neg hc]
    exact ⟨rfl, handle_marker _ _⟩
  · intro hc
    rw [persist_finding_noenrich_run, if_neg hc]
    exact ⟨rfl, handle_marker _ _⟩

/-- Witness for C2 (amended): a 500-status select raises and records the
recovery attempt. -/
theorem c2_witness :
    (get_active_services d0 ctxEv st0).2 = Except.error DalError.opFailed ∧
    Effect.handleErrorInvoked ∈ (get_active_services d0 ctxEv st0).1.effects :=
  (c2_amended_reauth_on_failure ctxEv st0 d0 svc0 [] job0
    { dict := [], last_alert_none := false } 3 "f").1 (by decide)

/-- C6: every wire row produced by a codec carries exactly the
constructor-fixed tenant scope (`account_id` and cluster column), and
every read or delete issued by the cited operations filters on exactly
that same pair. -/
theorem c6_tenant_scoping (d : Dal) (svc : ServiceInfo) (node job helm nsp scan : Entity)
    (ctx : Ctx) (s : St) :
    (getK (to_service d svc) "account_id" = some (.str d.account_id) ∧
      getK (to_service d svc) "cluster" = some (.str d.cluster)) ∧
    (getK (to_db_node d node) "account_id" = some (.str d.account_id) ∧
      getK (to_db_node d node) "cluster_id" = some (.str d.cluster)) ∧
    (getK (to_db_job d job) "account_id" = some (.str d.account_id) ∧
      getK (to_db_job d job) "cluster_id" = some (.str d.cluster)) ∧
    (getK (to_db_helm_release d helm) "account_id" = some (.str d.account_id) ∧
      getK (to_db_helm_release d helm) "cluster_id" = some (.str d.cluster)) ∧
    (getK (to_db_namespace d nsp) "account_id" = some (.str d.account_id) ∧
      getK (to_db_namespace d nsp) "cluster_id" = some (.str d.cluster)) ∧
    (getK (to_db_scanResult d scan) "account_id" = some (.str d.account_id) ∧
      getK (to_db_scanResult d scan) "cluster_id" = some (.str d.cluster)) ∧
    Effect.selectReq "Services"
        [("account_id", "eq", .str d.account_id),
         ("cluster", "eq", .str d.cluster),
         ("deleted", "eq", .bool false)]
      ∈ (get_active_services d ctx s).1.effects ∧
    Effect.selectReq "Jobs"
        [("account_id", "eq", .str d.account_id),
         ("cluster_id", "eq", .str d.cluster),
         ("deleted", "eq", .bool false)]
      ∈ (get_active_jobs d ctx s).1.effects ∧
    Effect.deleteReq "Jobs"
        [("account_id", "eq", .str d.account_id),
         ("cluster_id", "eq", .str d.cluster),
         ("service_key", "eq", .str job.service_key)]
      ∈ (remove_deleted_job d (some job) ctx s).1.effects := by
  refine ⟨⟨?_, ?_⟩, ⟨?_, ?_⟩, ⟨?_, ?_⟩, ⟨?_, ?_⟩, ⟨?_, ?_⟩, ⟨?_, ?_⟩, ?_, ?_, ?_⟩
  · simp [to_service, getK]
  · simp [to_service, getK]
  · unfold to_db_node
    rw [getK_setK_ne _ _ _ _ (by decide), getK_setK_ne _ _ _ _ (by decide), getK_setK_same]
  · unfold to_db_node
    rw [getK_setK_ne _ _ _ _ (by decide), getK_setK_same]
  · unfold to_db_job
    rw [getK_setK_ne _ _ _ _ (by decide), getK_setK_ne _ _ _ _ (by decide),
      getK_setK_ne _ _ _ _ (by decide), getK_setK_same]
  · unfold to_db_job
    rw [getK_setK_ne _ _ _ _ (by decide), getK_setK_ne _ _ _ _ (by decide), getK_setK_same]
  · unfold to_db_helm_release
    rw [getK_setK_ne _ _ _ _ (by decide), getK_setK_ne _ _ _ _ (by decide),
      getK_setK_ne _ _ _ _ (by decide), getK_setK_same]
  · unfold to_db_helm_release
    rw [getK_setK_ne _ _ _ _ (by decide), getK_setK_ne _ _ _ _ (by decide), getK_setK_same]
  · unfold to_db_namespace
    rw [getK_setK_ne _ _ _ _ (by decide), getK_setK_ne _ _ _ _ (by decide), getK_setK_same]
  · unfold to_db_namespace
    rw [getK_setK_ne _ _ _ _ (by decide), getK_setK_same]
  · unfold to_db_scanResult
    rw [getK_setK_ne _ _ _ _ (by decide), getK_setK_same]
  · unfold to_db_scanResult
    rw [getK_setK_same]
  · rw [get_active_services_run]
    by_cases hc : (ctx.resp s.httpCount).status_code ∈ [200]
    · rw [if_pos hc]
      simp [afterReq, servicesSelect]
    · rw [if_neg hc]
      exact mem_effects_handle _ _ _ (by simp [afterReq, servicesSelect])
  · rw [get_active_jobs_run]
    by_cases hc : (ctx.resp s.httpCount).status_code ∈ [200]
    · rw [if_pos hc]
      simp [afterReq, jobsSelect]
    · rw [if_neg hc]
      exact mem_effects_handle _ _ _ (by simp [afterReq, jobsSelect])
  · rw [remove_deleted_job_run]
    by_cases hc : (deletePatch (ctx.resp s.httpCount)).status_code ∈ [204, 200, 202]
    · rw [if_pos hc]
      simp [afterReq, jobsDelete]
    · rw [if_neg hc]
      exact mem_effects_handle _ _ _ (by simp [afterReq, jobsDelete])

/-- C8: when every enrichment of a finding is flagged as a scan (and
there is at least one), a successful `persist_finding` run writes no
evidence row and no issue row. -/
theorem c8_scan_only_skips_issue_write (d : Dal) (f : Finding) (ctx : Ctx) (s s' : St)
    (hall : ∀ e ∈ f.enrichments, e.scanFlag = true)
    (hne : f.enrichments ≠ [])
    (hstart : s.effects = [])
    (hok : persist_finding d f ctx s = (s', Except.ok ())) :
    ∀ rows u, Effect.insertReq "Evidence" rows u ∉ s'.effects ∧
      Effect.insertReq "Issues" rows u ∉ s'.effects := by
  intro rows u
  have heq := persist_finding_all_scan d f ctx s hall hne
  rw [heq] at hok
  have h1 := persist_scans_loop_no_write d ctx "Evidence" rows u (by decide)
    f.enrichments s (by simp [hstart])
  have h2 := persist_scans_loop_no_write d ctx "Issues" rows u (by decide)
    f.enrichments s (by simp [hstart])
  rw [hok] at h1 h2
  exact ⟨h1, h2⟩

/-- Witness for C8: a finding with one scan enrichment, the scan insert
answered 201 and the scan-meta RPC answered 200. -/
theorem c8_witness :
    Effect.insertReq "Evidence" [] false
        ∉ (persist_finding d0 findingScan ctxScan st0).1.effects ∧
    Effect.insertReq "Issues" [] false
        ∉ (persist_finding d0 findingScan ctxScan st0).1.effects :=
  c8_scan_only_skips_issue_write d0 findingScan ctxScan st0
    (persist_finding d0 findingScan ctxScan st0).1
    (by decide) (List.cons_ne_nil _ _) rfl rfl [] false
